import Mathlib

/-
Shallow embedding of the Campaign Asset Generation Orchestrator
(src/asset_generator.py, src/recovery_manager.py, src/cron_scheduler.py,
src/database.py, src/config.py).

Timestamps are modelled as integers measured in minutes; `now` is passed
explicitly wherever the source calls `datetime.utcnow()`.  Database rows are
Lean structures; a table is a `List` of rows; a SQL `select ... where P` is a
`List.filter` by the embedded predicate P.  Each external effect the
orchestrator reacts to (the pluggable producer, the S3 upload, a raised
exception) is an explicit environment value.
-/

namespace AssetGen

/-- Enumeration `AssetGenerationStatus` from src/database.py lines 59-63. -/
inductive AGStatus
  | pending
  | processing
  | generated
  | failed
deriving DecidableEq

/-- Enumeration `MessageStatus` from src/database.py lines 65-73. -/
inductive MsgStatus
  | pending
  | asset_generating
  | asset_generated
  | ready_to_send
  | sent
  | delivered
  | readMsg
  | failed
deriving DecidableEq

/-- Enumeration `CampaignStatus` from src/database.py lines 45-57. -/
inductive CampStatus
  | draft
  | pending_approval
  | approved
  | rejected
  | scheduled
  | asset_generation
  | asset_generated
  | ready_to_launch
  | running
  | paused
  | completed
  | cancelled
deriving DecidableEq

/-- The `asset_generation_progress` JSON blob: the keys written by
src/asset_generator.py and src/recovery_manager.py, as structure fields.
Counters written with `progress.get(key, 0) + 1` are plain naturals with
default 0; keys that may be absent are `Option` fields. -/
structure Progress where
  total_audience : Nat := 0
  processed : Nat := 0
  successful : Nat := 0
  failed : Nat := 0
  started_at : Option Int := none
  last_batch_at : Option Int := none
  completed_at : Option Int := none
  final_total : Option Nat := none
  final_successful : Option Nat := none
  final_failed : Option Nat := none
  recovery_count : Nat := 0
  last_recovery_at : Option Int := none
  resume_count : Nat := 0
  last_resume_at : Option Int := none
  failed_at : Option Int := none
  failure_reason : Option String := none
deriving DecidableEq

/-- An empty progress dict, the `or {}` default in the source. -/
def Progress.empty : Progress := {}

/-- Row of table `campaigns` (src/database.py), restricted to the columns the
orchestrator reads or writes. -/
structure Campaign where
  id : Nat
  template_id : Nat
  status : CampStatus
  asset_generation_status : Option AGStatus := none
  asset_generation_retry_count : Nat := 0
  asset_generation_last_error : Option String := none
  asset_generation_started_at : Option Int := none
  asset_generation_completed_at : Option Int := none
  asset_generation_progress : Option Progress := none
deriving DecidableEq

/-- Row of table `campaign_audience` (src/database.py), restricted to the
columns the orchestrator reads or writes. -/
structure Recipient where
  id : Nat
  campaign_id : Nat
  name : String := ""
  msisdn : String := ""
  message_status : MsgStatus := .pending
  asset_generation_status : Option AGStatus := none
  asset_generation_retry_count : Nat := 0
  asset_generation_last_error : Option String := none
  asset_generation_started_at : Option Int := none
  asset_generation_completed_at : Option Int := none
  generated_asset_urls : Option (List (String × String)) := none
deriving DecidableEq

/-- `self.max_retry_count = 3` in both AssetGenerationManager (src/asset_generator.py
line 28) and RecoveryManager (src/recovery_manager.py line 21). -/
def max_retry_count : Nat := 3

/-- `self.stuck_timeout_minutes = 30` (src/recovery_manager.py line 22). -/
def stuck_timeout_minutes : Int := 30

/-- `settings.max_concurrent_generations` default (src/config.py line 22). -/
def max_concurrent_generations : Nat := 5

/-- Predicate of the pending-audience query shared by
`_get_pending_campaign_audience` (src/asset_generator.py lines 153-165) and
`_has_pending_audience_members` (src/recovery_manager.py lines 134-146):
`asset_generation_status` IS NULL, or equals PENDING, or equals FAILED with
`asset_generation_retry_count < max_retry_count`. -/
def pendingEligible (r : Recipient) : Bool :=
  r.asset_generation_status.isNone
    || r.asset_generation_status == some .pending
    || (r.asset_generation_status == some .failed
          && r.asset_generation_retry_count < max_retry_count)

/-- Query of `_get_pending_campaign_audience` (src/asset_generator.py lines
151-167): audience rows of the campaign satisfying `pendingEligible`. -/
def getPendingCampaignAudience (campaign_id : Nat) (db : List Recipient) :
    List Recipient :=
  db.filter (fun r => r.campaign_id == campaign_id && pendingEligible r)

/-- Check of `_has_pending_audience_members` (src/recovery_manager.py lines
131-153): the same where-clause with `limit(1)`, and
`scalar_one_or_none() is not None`, i.e. whether any row matches. -/
def hasPendingAudienceMembers (campaign_id : Nat) (db : List Recipient) : Bool :=
  db.any (fun r => r.campaign_id == campaign_id && pendingEligible r)

/-- Predicate of the completed-count query in `_check_and_complete_campaign`
(src/asset_generator.py lines 374-385): GENERATED, or FAILED with
`asset_generation_retry_count >= max_retry_count`. -/
def completedMember (r : Recipient) : Bool :=
  r.asset_generation_status == some .generated
    || (r.asset_generation_status == some .failed
          && max_retry_count ≤ r.asset_generation_retry_count)

/-- Count query of src/asset_generator.py lines 367-371: all audience rows of
the campaign. -/
def totalAudienceCount (campaign_id : Nat) (db : List Recipient) : Nat :=
  (db.filter (fun r => r.campaign_id == campaign_id)).length

/-- Count query of src/asset_generator.py lines 374-387: audience rows of the
campaign that are GENERATED or FAILED with exhausted retries. -/
def completedAudienceCount (campaign_id : Nat) (db : List Recipient) : Nat :=
  (db.filter (fun r => r.campaign_id == campaign_id && completedMember r)).length

/-- Count query of src/asset_generator.py lines 390-397: GENERATED audience
rows of the campaign. -/
def successfulAudienceCount (campaign_id : Nat) (db : List Recipient) : Nat :=
  (db.filter (fun r =>
    r.campaign_id == campaign_id
      && r.asset_generation_status == some AGStatus.generated)).length

/-- Completion evaluator `_check_and_complete_campaign` (src/asset_generator.py
lines 363-427).  Counts total / completed / successful audience rows of the
campaign; when `total > 0` and `completed == total` it commits the final
campaign state, otherwise the campaign row is left untouched. -/
def checkAndCompleteCampaign (now : Int) (c : Campaign) (db : List Recipient) :
    Campaign :=
  let total_count := totalAudienceCount c.id db
  let completed_count := completedAudienceCount c.id db
  let success_count := successfulAudienceCount c.id db
  if 0 < total_count ∧ completed_count = total_count then
    let c1 :=
      if 0 < success_count then
        { c with status := .asset_generated,
                 asset_generation_status := some .generated }
      else
        { c with asset_generation_status := some .failed,
                 asset_generation_last_error :=
                   some "All audience members failed asset generation" }
    let p := c1.asset_generation_progress.getD Progress.empty
    { c1 with
        asset_generation_completed_at := some now,
        asset_generation_progress := some
          { p with completed_at := some now,
                   final_total := some total_count,
                   final_successful := some success_count,
                   final_failed := some (total_count - success_count) } }
  else
    c

/-- Outcome of one `self.s3_uploader.upload_file` attempt for one asset inside
`_upload_assets_to_s3` (src/asset_generator.py lines 339-359): the local file
exists and uploads to a URL, the local file is missing (skipped with a
warning), or the upload raises (caught, the asset is skipped). -/
inductive UploadOutcome
  | uploaded (url : String)
  | fileMissing
  | raised
deriving DecidableEq

/-- Upload step `_upload_assets_to_s3` (src/asset_generator.py lines 327-361):
when the job definition marks content "public" every asset value passes
through verbatim; otherwise each asset is uploaded, and a missing file or a
raised upload error skips that one asset without failing the whole step.  The
per-asset environment `uenv` gives each asset-type its upload outcome. -/
def uploadAssetsToS3 (typeofcontent : String) (assets : List (String × String))
    (uenv : String → UploadOutcome) : List (String × String) :=
  assets.foldl
    (fun uploaded_urls asset =>
      if typeofcontent == "public" then
        uploaded_urls ++ [(asset.1, asset.2)]
      else
        match uenv asset.1 with
        | .uploaded url => uploaded_urls ++ [(asset.1, url)]
        | .fileMissing => uploaded_urls
        | .raised => uploaded_urls)
    []

/-- Behaviour of the environment during one Unit attempt
(`_generate_asset_for_audience_member`, src/asset_generator.py lines 202-275):
the fresh `session.get` finds no row; `_execute_asset_generation_code` returns
`None` (missing `generate_asset` function or a raised error, both converted to
`None` at lines 315-325); it returns a mapping of produced assets together
with the per-asset upload outcomes (an empty mapping is falsy in Python and
takes the no-results branch); an exception is raised inside the attempt body
and caught by the except clause at line 263; or an exception escapes the
attempt (e.g. opening the session), to be caught by
`_safe_generate_asset_for_audience_member` (lines 169-200). -/
inductive AttemptEnv
  | notFound
  | producerNone
  | producerAssets (assets : List (String × String)) (uenv : String → UploadOutcome)
  | raiseInner (msg : String)
  | raiseOuter (msg : String)

/-- Unit attempt `_generate_asset_for_audience_member` (src/asset_generator.py
lines 202-275).  Returns the updated audience row and the boolean outcome.
The row is first moved to `message_status=ASSET_GENERATING`,
`asset_generation_status=PROCESSING` with `started_at` stamped (lines
223-226); on success the generated URLs and GENERATED statuses are committed
(lines 239-246); the no-results, empty-upload and caught-exception branches
commit `asset_generation_status=FAILED`, a `last_error` string and
`completed_at` (lines 248-273) — they update neither `message_status` nor
`asset_generation_retry_count`. -/
def generateAssetForAudienceMember (now : Int) (typeofcontent : String)
    (r : Recipient) (env : AttemptEnv) : Recipient × Bool :=
  match env with
  | .notFound => (r, false)
  | _ =>
    let r1 := { r with message_status := .asset_generating,
                       asset_generation_status := some .processing,
                       asset_generation_started_at := some now }
    match env with
    | .notFound => (r, false)
    | .raiseOuter _ => (r, false)
    | .raiseInner msg =>
        ({ r1 with asset_generation_status := some .failed,
                   asset_generation_last_error := some msg,
                   asset_generation_completed_at := some now }, false)
    | .producerNone =>
        ({ r1 with asset_generation_status := some .failed,
                   asset_generation_last_error :=
                     some "Asset generation returned no results",
                   asset_generation_completed_at := some now }, false)
    | .producerAssets assets uenv =>
        if assets.isEmpty then
          ({ r1 with asset_generation_status := some .failed,
                     asset_generation_last_error :=
                       some "Asset generation returned no results",
                     asset_generation_completed_at := some now }, false)
        else
          let uploaded_urls := uploadAssetsToS3 typeofcontent assets uenv
          if uploaded_urls.isEmpty then
            ({ r1 with asset_generation_status := some .failed,
                       asset_generation_last_error := some "S3 upload failed",
                       asset_generation_completed_at := some now }, false)
          else
            ({ r1 with generated_asset_urls := some uploaded_urls,
                       message_status := .asset_generated,
                       asset_generation_status := some .generated,
                       asset_generation_completed_at := some now }, true)

/-- Safe wrapper `_safe_generate_asset_for_audience_member`
(src/asset_generator.py lines 169-200): an exception escaping the attempt is
caught in a separate session that commits `asset_generation_status=FAILED`,
the error text, an incremented `asset_generation_retry_count`, `completed_at`
and `message_status=FAILED` (lines 190-194), and `False` is returned; in every
case the wrapper returns a boolean and never raises. -/
def safeGenerateAssetForAudienceMember (now : Int) (typeofcontent : String)
    (r : Recipient) (env : AttemptEnv) : Recipient × Bool :=
  match env with
  | .raiseOuter msg =>
      ({ r with asset_generation_status := some .failed,
                asset_generation_last_error := some msg,
                asset_generation_retry_count := r.asset_generation_retry_count + 1,
                asset_generation_completed_at := some now,
                message_status := .failed }, false)
  | _ => generateAssetForAudienceMember now typeofcontent r env

/-- Failure marking `_mark_campaign_failed` (src/asset_generator.py lines
429-444): FAILED status, `completed_at`, `last_error` when a message is given
(Python truthiness: the empty string is skipped), and failure info appended to
the progress dict with `error_message or 'Unknown error'`. -/
def markCampaignFailed (now : Int) (c : Campaign) (error_message : String) :
    Campaign :=
  let c1 := { c with asset_generation_status := some AGStatus.failed,
                     asset_generation_completed_at := some now }
  let c2 :=
    if error_message == "" then c1
    else { c1 with asset_generation_last_error := some error_message }
  let p := c2.asset_generation_progress.getD Progress.empty
  { c2 with
      asset_generation_progress :=
        some { p with failed_at := some now,
                      failure_reason :=
                        some (if error_message == "" then "Unknown error"
                              else error_message) } }

/-- Query of `_find_stuck_campaigns` (src/recovery_manager.py lines 58-77):
campaigns with `status=ASSET_GENERATION`, `asset_generation_status=PROCESSING`
and `asset_generation_started_at < now - stuck_timeout_minutes`; a NULL
`started_at` never satisfies the SQL comparison. -/
def findStuckCampaigns (now : Int) (cdb : List Campaign) : List Campaign :=
  let cutoff_time := now - stuck_timeout_minutes
  cdb.filter (fun c =>
    c.status == CampStatus.asset_generation
      && c.asset_generation_status == some AGStatus.processing
      && (match c.asset_generation_started_at with
          | some t => decide (t < cutoff_time)
          | none => false))

/-- Per-campaign body of `_recover_stuck_campaigns` (src/recovery_manager.py
lines 155-180): reset to PENDING, increment the retry count (with no cap
check), record the recovery reason and append recovery info to the progress
dict. -/
def recoverStuckCampaign (now : Int) (c : Campaign) : Campaign :=
  let c1 := { c with
      asset_generation_status := some AGStatus.pending,
      asset_generation_retry_count := c.asset_generation_retry_count + 1,
      asset_generation_last_error :=
        some "Recovered from stuck state after server restart" }
  let p := c1.asset_generation_progress.getD Progress.empty
  { c1 with
      asset_generation_progress :=
        some { p with recovery_count := p.recovery_count + 1,
                      last_recovery_at := some now } }

/-- Query of `_find_stuck_audience_members` (src/recovery_manager.py lines
79-98): audience rows with `message_status=ASSET_GENERATING`,
`asset_generation_status=PROCESSING` and
`asset_generation_started_at < now - stuck_timeout_minutes`. -/
def findStuckAudienceMembers (now : Int) (db : List Recipient) : List Recipient :=
  let cutoff_time := now - stuck_timeout_minutes
  db.filter (fun r =>
    r.message_status == MsgStatus.asset_generating
      && r.asset_generation_status == some AGStatus.processing
      && (match r.asset_generation_started_at with
          | some t => decide (t < cutoff_time)
          | none => false))

/-- Per-member body of `_recover_stuck_audience_members`
(src/recovery_manager.py lines 182-209): below the retry cap the member is
reset to pending/pending with an incremented retry count; at or above the cap
both statuses become FAILED with reason "Max retries exceeded after recovery"
and `completed_at` stamped. -/
def recoverStuckAudienceMember (now : Int) (member : Recipient) : Recipient :=
  if member.asset_generation_retry_count < max_retry_count then
    { member with
        message_status := .pending,
        asset_generation_status := some AGStatus.pending,
        asset_generation_retry_count := member.asset_generation_retry_count + 1,
        asset_generation_last_error :=
          some "Recovered from stuck state after server restart" }
  else
    { member with
        message_status := .failed,
        asset_generation_status := some AGStatus.failed,
        asset_generation_last_error := some "Max retries exceeded after recovery",
        asset_generation_completed_at := some now }

/-- Batch recovery `_recover_stuck_audience_members` applied to a selected
list (src/recovery_manager.py lines 182-209). -/
def recoverStuckAudienceMembers (now : Int) (members : List Recipient) :
    List Recipient :=
  members.map (recoverStuckAudienceMember now)

/-- Per-campaign body of `_resume_incomplete_campaigns`
(src/recovery_manager.py lines 211-235): reset `status` to APPROVED, clear
`asset_generation_status`, and append resume info to the progress dict. -/
def resumeIncompleteCampaign (now : Int) (c : Campaign) : Campaign :=
  let c1 := { c with status := CampStatus.approved,
                     asset_generation_status := none }
  let p := c1.asset_generation_progress.getD Progress.empty
  { c1 with
      asset_generation_progress :=
        some { p with resume_count := p.resume_count + 1,
                      last_resume_at := some now } }

/-- Campaign pickup `_process_campaign` (src/cron_scheduler.py lines 110-124):
flips `status` to ASSET_GENERATION; the writes of
`asset_generation_status=PROCESSING` and `asset_generation_started_at` are
commented out in the source (lines 116-118). -/
def schedulerPickupCampaign (c : Campaign) : Campaign :=
  { c with status := CampStatus.asset_generation }

/-- Scheduling-loop failure handling, the except bodies of
`_check_and_process_campaigns` (src/cron_scheduler.py lines 99-105) and of
`_safe_generate_campaign_assets` (lines 130-139): FAILED status, the error
text, and an unconditional retry-count increment. -/
def schedulerMarkCampaignFailed (msg : String) (c : Campaign) : Campaign :=
  { c with
      asset_generation_status := some AGStatus.failed,
      asset_generation_last_error := some msg,
      asset_generation_retry_count := c.asset_generation_retry_count + 1 }

/-- Slicing loop `for i in range(0, len(audience_members), batch_size)` with
`batch = audience_members[i:i+batch_size]` (src/asset_generator.py lines
105-106), as take/drop recursion.  Python raises ValueError on step 0; the
coordinator always calls this with a positive step (the `bs = 0` clause is
unreachable there and returns the empty batching). -/
def chunkList (bs : Nat) (xs : List α) : List (List α) :=
  match bs, xs with
  | _, [] => []
  | 0, _ :: _ => []
  | b + 1, x :: xs => ((x :: xs).take (b + 1)) :: chunkList (b + 1) ((x :: xs).drop (b + 1))
termination_by xs.length
decreasing_by simp [List.length_drop]; omega

/-- Progress initialisation before the first batch (src/asset_generator.py
lines 91-99): `total_audience`, zeroed counters and a start stamp, updated
into the existing progress dict. -/
def initProgress (p : Progress) (n : Nat) (now : Int) : Progress :=
  { p with total_audience := n, processed := 0, successful := 0, failed := 0,
           started_at := some now }

/-- Per-batch progress update (src/asset_generator.py lines 116-126):
`processed += len(batch)`, `successful += count(True)`, `failed +=
count(False)`, and a `last_batch_at` stamp. -/
def updateProgressBatch (now : Int) (p : Progress) (batch_len : Nat)
    (results : List Bool) : Progress :=
  { p with
      processed := p.processed + batch_len,
      successful := p.successful + (results.filter (fun b => b == true)).length,
      failed := p.failed + (results.filter (fun b => b == false)).length,
      last_batch_at := some now }

/-- Environment of one Coordinator run: whether the active
`AssetGenerateFiles` row exists for the campaign template
(src/asset_generator.py lines 74-78), its `typeofcontent` column, and the
behaviour of the external world for each audience member's Unit attempt,
keyed by member id. -/
structure CoordEnv where
  assetFileFound : Bool
  typeofcontent : String
  unitEnv : Nat → AttemptEnv

/-- One Unit launch from the batch loop (src/asset_generator.py lines
109-114): the Unit re-reads the row by id in its own session (line 217) and
writes its result back; a row no longer present yields `False` with no write
(lines 218-220). -/
def runUnitOnDB (now : Int) (env : CoordEnv) (db : List Recipient)
    (member : Recipient) : List Recipient × Bool :=
  match db.find? (fun x => x.id == member.id) with
  | none => (db, false)
  | some r =>
      let res := safeGenerateAssetForAudienceMember now env.typeofcontent r
        (env.unitEnv member.id)
      (db.map (fun x => if x.id == member.id then res.1 else x), res.2)

/-- One batch of Units (src/asset_generator.py lines 109-114): every member of
the batch is attempted — `asyncio.gather` with isolated failure capture, here
linearised since distinct rows are touched — and the boolean outcomes are
collected in order. -/
def runBatch (now : Int) (env : CoordEnv) (db : List Recipient) :
    List Recipient → List Recipient × List Bool
  | [] => (db, [])
  | member :: rest =>
      let res := runUnitOnDB now env db member
      let tail := runBatch now env res.1 rest
      (tail.1, res.2 :: tail.2)

/-- One iteration of the batch loop (src/asset_generator.py lines 105-128):
run the batch, then update and commit the campaign progress before the next
batch starts. -/
def coordStep (now : Int) (env : CoordEnv) (st : Campaign × List Recipient)
    (batch : List Recipient) : Campaign × List Recipient :=
  let res := runBatch now env st.2 batch
  let p := st.1.asset_generation_progress.getD Progress.empty
  ({ st.1 with
       asset_generation_progress :=
         some (updateProgressBatch now p batch.length res.2) },
   res.1)

/-- Sequence of states committed after each batch, one entry per batch: the
resumable checkpoints of the run. -/
def coordTrace (now : Int) (env : CoordEnv) (st : Campaign × List Recipient) :
    List (List Recipient) → List (Campaign × List Recipient)
  | [] => []
  | b :: bs =>
      let st1 := coordStep now env st b
      st1 :: coordTrace now env st1 bs

/-- Coordinator body `_process_campaign_generation` (src/asset_generator.py
lines 64-132), with `k` the configured `settings.max_concurrent_generations`:
a missing asset-generation file marks the campaign failed; an empty
pending-audience set skips straight to the completion evaluator; otherwise the
progress record is initialised, the pending members are processed in batches
of `min k n`, and the completion evaluator runs at the end. -/
def processCampaignGeneration (now : Int) (k : Nat) (env : CoordEnv)
    (c : Campaign) (db : List Recipient) : Campaign × List Recipient :=
  if env.assetFileFound = false then
    (markCampaignFailed now c "No asset generation file found", db)
  else
    let audience_members := getPendingCampaignAudience c.id db
    if audience_members.isEmpty then
      (checkAndCompleteCampaign now c db, db)
    else
      let p0 := initProgress (c.asset_generation_progress.getD Progress.empty)
        audience_members.length now
      let c0 := { c with asset_generation_progress := some p0 }
      let batches := chunkList (min k audience_members.length) audience_members
      let fin := batches.foldl (coordStep now env) (c0, db)
      (checkAndCompleteCampaign now fin.1 fin.2, fin.2)

/-- Outcome of the awaited body inside `generate_campaign_assets`
(src/asset_generator.py lines 41-59): normal completion, `asyncio.TimeoutError`
from the 30-minute `wait_for` ceiling, or any other exception. -/
inductive RunOutcome
  | ok
  | timeout
  | raised (msg : String)

/-- Result of one guarded coordinator entry: the Active-Campaign Guard
(`self.active_generations`) while the body runs and after the finally clause,
the resulting rows, and whether the body ran at all. -/
structure CoordinatorRunResult where
  active_during : List Nat
  guard_final : List Nat
  campaign : Campaign
  recipients : List Recipient
  started : Bool
deriving DecidableEq

/-- Guarded entry point `generate_campaign_assets` (src/asset_generator.py
lines 31-62): refuse and return when the campaign id is already in
`active_generations`; otherwise add it, run the coordinator body under the
timeout (a timeout or exception marks the campaign failed), and discard the id
in the finally clause on every exit path. -/
def generateCampaignAssets (now : Int) (k : Nat) (env : CoordEnv)
    (outcome : RunOutcome) (active_generations : List Nat) (c : Campaign)
    (db : List Recipient) : CoordinatorRunResult :=
  if c.id ∈ active_generations then
    ⟨active_generations, active_generations, c, db, false⟩
  else
    let during := c.id :: active_generations
    let res : Campaign × List Recipient :=
      match outcome with
      | .ok => processCampaignGeneration now k env c db
      | .timeout => (markCampaignFailed now c "Generation timeout", db)
      | .raised msg => (markCampaignFailed now c msg, db)
    ⟨during, during.erase c.id, res.1, res.2, true⟩

/-- The campaign-row writes performed by the orchestrator itself: the
scheduling-loop pickup and failure marking (src/cron_scheduler.py), the
Coordinator's failure marking, progress commits and completion evaluation
(src/asset_generator.py), and the recovery phases that touch campaigns
(src/recovery_manager.py). -/
inductive CampaignOp
  | pickup
  | schedFail (msg : String)
  | coordMarkFailed (now : Int) (msg : String)
  | coordWriteProgress (p : Progress)
  | completeEval (now : Int) (db : List Recipient)
  | recoverStuck (now : Int)
  | resume (now : Int)

/-- Effect of one orchestrator operation on one campaign row. -/
def applyCampaignOp (op : CampaignOp) (c : Campaign) : Campaign :=
  match op with
  | .pickup => schedulerPickupCampaign c
  | .schedFail msg => schedulerMarkCampaignFailed msg c
  | .coordMarkFailed t msg => markCampaignFailed t c msg
  | .coordWriteProgress p => { c with asset_generation_progress := some p }
  | .completeEval t db => checkAndCompleteCampaign t c db
  | .recoverStuck t => recoverStuckCampaign t c
  | .resume t => resumeIncompleteCampaign t c

/-- States of a campaign row reachable through a sequence of orchestrator
operations. -/
def applyCampaignOps (ops : List CampaignOp) (c : Campaign) : Campaign :=
  ops.foldl (fun c op => applyCampaignOp op c) c

/-- Audience row with NULL generation status and zero retries. -/
def samplePendingRecipient : Recipient := { id := 1, campaign_id := 1 }

/-- Audience row that failed with the retry budget exhausted. -/
def sampleFailedMaxRecipient : Recipient :=
  { id := 2, campaign_id := 1,
    asset_generation_status := some AGStatus.failed,
    asset_generation_retry_count := 3 }

/-- Audience row whose assets were generated. -/
def sampleGeneratedRecipient : Recipient :=
  { id := 3, campaign_id := 1,
    asset_generation_status := some AGStatus.generated }

/-- Campaign row in the asset-generation phase. -/
def sampleCampaign : Campaign :=
  { id := 1, template_id := 1, status := CampStatus.asset_generation }

/-- Campaign row whose retry count already equals the cap. -/
def sampleCampaignRetry3 : Campaign :=
  { id := 2, template_id := 1, status := CampStatus.asset_generation,
    asset_generation_retry_count := 3 }

/-- Ten audience rows of campaign 1, all permanently failed. -/
def audienceAllFailed : List Recipient :=
  (List.range 10).map (fun i => { sampleFailedMaxRecipient with id := i })

/-- Ten audience rows of campaign 1: three generated, seven permanently failed. -/
def audienceMixed : List Recipient :=
  (List.range 3).map (fun i => { sampleGeneratedRecipient with id := i })
    ++ (List.range 7).map (fun i => { sampleFailedMaxRecipient with id := i + 3 })

/-- Five pending audience rows of campaign 1. -/
def audienceFive : List Recipient :=
  [{ samplePendingRecipient with id := 0 }, { samplePendingRecipient with id := 1 },
   { samplePendingRecipient with id := 2 }, { samplePendingRecipient with id := 3 },
   { samplePendingRecipient with id := 4 }]

/-- Audience row that entered processing 31 minutes before time 100. -/
def stuckFor31 : Recipient :=
  { id := 7, campaign_id := 1, message_status := .asset_generating,
    asset_generation_status := some AGStatus.processing,
    asset_generation_started_at := some 69 }

/-- Audience row that entered processing 29 minutes before time 100. -/
def stuckFor29 : Recipient :=
  { id := 8, campaign_id := 1, message_status := .asset_generating,
    asset_generation_status := some AGStatus.processing,
    asset_generation_started_at := some 71 }

/-- Coordinator environment whose asset file exists and whose producer always
returns no results. -/
def sampleCoordEnv : CoordEnv :=
  { assetFileFound := true, typeofcontent := "private",
    unitEnv := fun _ => AttemptEnv.producerNone }

/-- Expansion of the pending-eligibility predicate into its three disjuncts. -/
theorem pendingEligible_iff (r : Recipient) :
    pendingEligible r = true ↔
      r.asset_generation_status = none ∨
      r.asset_generation_status = some AGStatus.pending ∨
      (r.asset_generation_status = some AGStatus.failed ∧
        r.asset_generation_retry_count < max_retry_count) := by
  simp [pendingEligible, Option.isNone_iff_eq_none, or_assoc]

/-- Expansion of the completed-member predicate into its two disjuncts. -/
theorem completedMember_iff (r : Recipient) :
    completedMember r = true ↔
      r.asset_generation_status = some AGStatus.generated ∨
      (r.asset_generation_status = some AGStatus.failed ∧
        max_retry_count ≤ r.asset_generation_retry_count) := by
  simp [completedMember]

/-- When the completion condition fails the evaluator is the identity on the
campaign row. -/
theorem checkAndComplete_skip (now : Int) (c : Campaign) (db : List Recipient)
    (h : ¬ (0 < totalAudienceCount c.id db ∧
            completedAudienceCount c.id db = totalAudienceCount c.id db)) :
    checkAndCompleteCampaign now c db = c := by
  unfold checkAndCompleteCampaign
  exact if_neg h

/-- C3: a Recipient is selected by the Coordinator's pending query and by the
Recovery Subsystem's has-pending check exactly when its
asset_generation_status is null or pending, or failed with a retry count below
max_retry_count; a failed Recipient whose retry count equals max_retry_count
(3) is never selected. -/
theorem pending_selection_characterisation (campaign_id : Nat)
    (db : List Recipient) (r : Recipient) :
    (r ∈ getPendingCampaignAudience campaign_id db ↔
       r ∈ db ∧ r.campaign_id = campaign_id ∧
         (r.asset_generation_status = none ∨
          r.asset_generation_status = some AGStatus.pending ∨
          (r.asset_generation_status = some AGStatus.failed ∧
            r.asset_generation_retry_count < max_retry_count)))
    ∧ (hasPendingAudienceMembers campaign_id db = true ↔
        ∃ x ∈ db, x.campaign_id = campaign_id ∧
          (x.asset_generation_status = none ∨
           x.asset_generation_status = some AGStatus.pending ∨
           (x.asset_generation_status = some AGStatus.failed ∧
             x.asset_generation_retry_count < max_retry_count)))
    ∧ (r.asset_generation_status = some AGStatus.failed →
       r.asset_generation_retry_count = max_retry_count →
       pendingEligible r = false ∧ r ∉ getPendingCampaignAudience campaign_id db) := by
  refine ⟨?_, ?_, ?_⟩
  · simp [getPendingCampaignAudience, List.mem_filter, pendingEligible_iff,
      and_assoc]
  · simp [hasPendingAudienceMembers, List.any_eq_true, pendingEligible_iff,
      and_assoc]
  · intro h1 h2
    have hpe : pendingEligible r = false := by
      simp [pendingEligible, h1, h2]
    refine ⟨hpe, ?_⟩
    simp [getPendingCampaignAudience, List.mem_filter, hpe]

/-- Closed instance of the pending-selection characterisation at a failed
Recipient with retry count 3. -/
theorem pending_selection_characterisation_witness :
    pendingEligible sampleFailedMaxRecipient = false ∧
    sampleFailedMaxRecipient ∉
      getPendingCampaignAudience 1 [samplePendingRecipient, sampleFailedMaxRecipient] :=
  (pending_selection_characterisation 1
    [samplePendingRecipient, sampleFailedMaxRecipient] sampleFailedMaxRecipient).2.2
    rfl rfl

/-- C8: when the completion condition fails — no audience rows, or not every
row completed — the completion evaluator leaves the Campaign row entirely
unchanged (status, generation status, error, timestamps and progress). -/
theorem completion_evaluator_frame (now : Int) (c : Campaign)
    (db : List Recipient)
    (h : ¬ (0 < totalAudienceCount c.id db ∧
            completedAudienceCount c.id db = totalAudienceCount c.id db)) :
    checkAndCompleteCampaign now c db = c := by
  unfold checkAndCompleteCampaign
  exact if_neg h

/-- Closed instance of the completion-evaluator frame property at a campaign
with no audience rows. -/
theorem completion_evaluator_frame_witness :
    checkAndCompleteCampaign 0 sampleCampaign [] = sampleCampaign :=
  completion_evaluator_frame 0 sampleCampaign [] (by decide)

/-- C5: stuck-recipient recovery selects exactly the Recipients with
message_status=asset_generating, asset_generation_status=processing and a
start stamp strictly older than the 30-minute threshold (31 minutes ago is
selected, 29 minutes ago is not); a selected Recipient below the retry cap is
reset to pending/pending with an incremented retry count, and one at the cap
is marked failed/failed with reason "Max retries exceeded after recovery" and
a completed_at stamp. -/
theorem stuck_recipient_recovery (now : Int) (db : List Recipient)
    (r : Recipient) :
    (r ∈ findStuckAudienceMembers now db ↔
       r ∈ db ∧ r.message_status = MsgStatus.asset_generating ∧
       r.asset_generation_status = some AGStatus.processing ∧
       ∃ t, r.asset_generation_started_at = some t ∧
         t < now - stuck_timeout_minutes)
    ∧ (stuckFor31 ∈ findStuckAudienceMembers 100 [stuckFor31, stuckFor29] ∧
       stuckFor29 ∉ findStuckAudienceMembers 100 [stuckFor31, stuckFor29])
    ∧ (r.asset_generation_retry_count < max_retry_count →
        recoverStuckAudienceMember now r =
          { r with
              message_status := .pending,
              asset_generation_status := some AGStatus.pending,
              asset_generation_retry_count := r.asset_generation_retry_count + 1,
              asset_generation_last_error :=
                some "Recovered from stuck state after server restart" })
    ∧ (max_retry_count ≤ r.asset_generation_retry_count →
        recoverStuckAudienceMember now r =
          { r with
              message_status := .failed,
              asset_generation_status := some AGStatus.failed,
              asset_generation_last_error :=
                some "Max retries exceeded after recovery",
              asset_generation_completed_at := some now }) := by
  refine ⟨?_, ⟨by decide, by decide⟩, ?_, ?_⟩
  · simp only [findStuckAudienceMembers, List.mem_filter, Bool.and_eq_true,
      beq_iff_eq]
    cases h : r.asset_generation_started_at with
    | none => simp [h]
    | some t => simp [h, and_assoc]
  · intro h
    unfold recoverStuckAudienceMember
    rw [if_pos h]
  · intro h
    unfold recoverStuckAudienceMember
    rw [if_neg (by omega)]

/-- Closed instance of stuck-recipient recovery at a Recipient stuck for 31
minutes with retry count 0. -/
theorem stuck_recipient_recovery_witness :
    recoverStuckAudienceMember 100 stuckFor31 =
      { stuckFor31 with
          message_status := .pending,
          asset_generation_status := some AGStatus.pending,
          asset_generation_retry_count := stuckFor31.asset_generation_retry_count + 1,
          asset_generation_last_error :=
            some "Recovered from stuck state after server restart" } :=
  (stuck_recipient_recovery 100 [] stuckFor31).2.2.1 (by decide)

/-- C4 counterexample: stuck-campaign recovery applied to a campaign whose
retry count already equals max_retry_count increments it to 4, so the retry
count exceeds the claimed cap. -/
theorem retry_cap_counterexample :
    sampleCampaignRetry3.asset_generation_retry_count = max_retry_count ∧
    (recoverStuckCampaign 0 sampleCampaignRetry3).asset_generation_retry_count = 4 ∧
    max_retry_count <
      (recoverStuckCampaign 0 sampleCampaignRetry3).asset_generation_retry_count := by
  exact ⟨rfl, rfl, by decide⟩

/-- C4 (amended): across the Unit attempt, stuck-campaign recovery,
stuck-recipient recovery and the scheduling-loop failure handling the retry
count never decreases; stuck-recipient recovery also respects the cap (a count
at most max_retry_count stays at most max_retry_count), while stuck-campaign
recovery and the scheduling-loop failure path increment with no cap check. -/
theorem retry_count_monotonic :
    (∀ (now : Int) (toc : String) (r : Recipient) (env : AttemptEnv),
       r.asset_generation_retry_count ≤
         (safeGenerateAssetForAudienceMember now toc r env).1.asset_generation_retry_count)
    ∧ (∀ (now : Int) (c : Campaign),
       c.asset_generation_retry_count ≤
         (recoverStuckCampaign now c).asset_generation_retry_count)
    ∧ (∀ (now : Int) (r : Recipient),
       r.asset_generation_retry_count ≤
         (recoverStuckAudienceMember now r).asset_generation_retry_count)
    ∧ (∀ (msg : String) (c : Campaign),
       c.asset_generation_retry_count ≤
         (schedulerMarkCampaignFailed msg c).asset_generation_retry_count)
    ∧ (∀ (now : Int) (r : Recipient),
       r.asset_generation_retry_count ≤ max_retry_count →
       (recoverStuckAudienceMember now r).asset_generation_retry_count ≤
         max_retry_count) := by
  refine ⟨?_, ?_, ?_, ?_, ?_⟩
  · intro now toc r env
    cases env <;>
      simp only [safeGenerateAssetForAudienceMember,
        generateAssetForAudienceMember] <;>
      (repeat' split) <;> simp
  · intro now c
    simp [recoverStuckCampaign]
  · intro now r
    unfold recoverStuckAudienceMember
    split <;> simp
  · intro msg c
    simp [schedulerMarkCampaignFailed]
  · intro now r h
    unfold recoverStuckAudienceMember
    split <;> simp <;> omega

/-- Closed instance of retry-count monotonicity: stuck-recipient recovery at a
pending Recipient keeps the count within the cap. -/
theorem retry_count_monotonic_witness :
    (recoverStuckAudienceMember 0 samplePendingRecipient).asset_generation_retry_count ≤
      max_retry_count :=
  retry_count_monotonic.2.2.2.2 0 samplePendingRecipient (by decide)

/-- C1 counterexample: when the producer returns no artifacts, the Unit
commits asset_generation_status=failed but leaves message_status at
asset_generating (not failed) and does not increment the retry count,
contradicting the claim that every failure records message_status=failed and
an incremented retry count. -/
theorem unit_failure_claim_counterexample :
    (safeGenerateAssetForAudienceMember 0 "private" samplePendingRecipient
        AttemptEnv.producerNone).2 = false ∧
    (safeGenerateAssetForAudienceMember 0 "private" samplePendingRecipient
        AttemptEnv.producerNone).1.message_status = MsgStatus.asset_generating ∧
    (safeGenerateAssetForAudienceMember 0 "private" samplePendingRecipient
        AttemptEnv.producerNone).1.message_status ≠ MsgStatus.failed ∧
    (safeGenerateAssetForAudienceMember 0 "private" samplePendingRecipient
        AttemptEnv.producerNone).1.asset_generation_retry_count =
      samplePendingRecipient.asset_generation_retry_count := by
  exact ⟨rfl, rfl, by decide, rfl⟩

/-- C1 (amended): the Unit always returns a boolean outcome and never raises
past its boundary; on any failing attempt other than the vanishing-row case
(which changes nothing) it commits asset_generation_status=failed, a
diagnostic last_error and a completed_at stamp; message_status=failed and the
retry-count increment are committed only on the path where an exception
escapes the attempt and is caught by the safe wrapper. -/
theorem unit_failure_semantics (now : Int) (toc : String) (r : Recipient)
    (env : AttemptEnv) (henv : env ≠ AttemptEnv.notFound) :
    ((safeGenerateAssetForAudienceMember now toc r env).2 = false →
       (safeGenerateAssetForAudienceMember now toc r env).1.asset_generation_status
           = some AGStatus.failed ∧
       ((safeGenerateAssetForAudienceMember now toc r env).1.asset_generation_last_error).isSome
           = true ∧
       (safeGenerateAssetForAudienceMember now toc r env).1.asset_generation_completed_at
           = some now)
    ∧ (∀ msg, env = AttemptEnv.raiseOuter msg →
        (safeGenerateAssetForAudienceMember now toc r env).1.message_status
            = MsgStatus.failed ∧
        (safeGenerateAssetForAudienceMember now toc r env).1.asset_generation_retry_count
            = r.asset_generation_retry_count + 1) := by
  constructor
  · intro hfail
    cases env with
    | notFound => exact absurd rfl henv
    | producerNone =>
        simp [safeGenerateAssetForAudienceMember, generateAssetForAudienceMember]
    | raiseInner msg =>
        simp [safeGenerateAssetForAudienceMember, generateAssetForAudienceMember]
    | raiseOuter msg =>
        simp [safeGenerateAssetForAudienceMember]
    | producerAssets assets uenv =>
        revert hfail
        simp only [safeGenerateAssetForAudienceMember,
          generateAssetForAudienceMember]
        split
        · intro _; simp
        · split
          · intro _; simp
          · intro hfail; simp at hfail
  · intro msg hmsg
    subst hmsg
    simp [safeGenerateAssetForAudienceMember]

/-- Closed instance of the Unit failure semantics at an exception caught inside
the attempt. -/
theorem unit_failure_semantics_witness :
    (safeGenerateAssetForAudienceMember 0 "private" samplePendingRecipient
        (AttemptEnv.raiseInner "db error")).1.asset_generation_status
      = some AGStatus.failed ∧
    ((safeGenerateAssetForAudienceMember 0 "private" samplePendingRecipient
        (AttemptEnv.raiseInner "db error")).1.asset_generation_last_error).isSome
      = true ∧
    (safeGenerateAssetForAudienceMember 0 "private" samplePendingRecipient
        (AttemptEnv.raiseInner "db error")).1.asset_generation_completed_at
      = some 0 :=
  (unit_failure_semantics 0 "private" samplePendingRecipient
      (AttemptEnv.raiseInner "db error") (fun h => nomatch h)).1 rfl

/-- C2: the completion evaluator marks the campaign done exactly when
total > 0 and completed == total, where completed counts rows that are
generated or failed with exhausted retries; then a positive successful count
yields status=asset_generated and asset_generation_status=generated, a zero
successful count yields asset_generation_status=failed with the
all-recipients-failed reason, and completed_at is stamped; otherwise the row
is unchanged.  In particular ten rows all completed with zero successes end
failed, and with three successes end generated/asset_generated. -/
theorem completion_evaluator_correct (now : Int) (c : Campaign)
    (db : List Recipient) :
    (∀ x : Recipient, completedMember x = true ↔
       x.asset_generation_status = some AGStatus.generated ∨
       (x.asset_generation_status = some AGStatus.failed ∧
         max_retry_count ≤ x.asset_generation_retry_count))
    ∧ (0 < totalAudienceCount c.id db →
       completedAudienceCount c.id db = totalAudienceCount c.id db →
       (0 < successfulAudienceCount c.id db →
          (checkAndCompleteCampaign now c db).status = CampStatus.asset_generated ∧
          (checkAndCompleteCampaign now c db).asset_generation_status
            = some AGStatus.generated) ∧
       (successfulAudienceCount c.id db = 0 →
          (checkAndCompleteCampaign now c db).asset_generation_status
            = some AGStatus.failed ∧
          (checkAndCompleteCampaign now c db).asset_generation_last_error
            = some "All audience members failed asset generation") ∧
       (checkAndCompleteCampaign now c db).asset_generation_completed_at = some now)
    ∧ (¬ (0 < totalAudienceCount c.id db ∧
          completedAudienceCount c.id db = totalAudienceCount c.id db) →
       checkAndCompleteCampaign now c db = c)
    ∧ (checkAndCompleteCampaign 0 sampleCampaign audienceAllFailed).asset_generation_status
        = some AGStatus.failed
    ∧ (checkAndCompleteCampaign 0 sampleCampaign audienceMixed).asset_generation_status
        = some AGStatus.generated
    ∧ (checkAndCompleteCampaign 0 sampleCampaign audienceMixed).status
        = CampStatus.asset_generated := by
  refine ⟨completedMember_iff, ?_, checkAndComplete_skip now c db,
    by decide, by decide, by decide⟩
  intro h1 h2
  unfold checkAndCompleteCampaign
  rw [if_pos ⟨h1, h2⟩]
  refine ⟨?_, ?_, ?_⟩
  · intro hs
    rw [if_pos hs]
    exact ⟨rfl, rfl⟩
  · intro hs
    rw [if_neg (by omega)]
    exact ⟨rfl, rfl⟩
  · split <;> rfl

/-- Closed instance of the completion evaluator at the mixed audience: three
successes among ten completed rows. -/
theorem completion_evaluator_correct_witness :
    (checkAndCompleteCampaign 0 sampleCampaign audienceMixed).status
        = CampStatus.asset_generated ∧
    (checkAndCompleteCampaign 0 sampleCampaign audienceMixed).asset_generation_status
        = some AGStatus.generated :=
  ((completion_evaluator_correct 0 sampleCampaign audienceMixed).2.1
      (by decide) (by decide)).1 (by decide)

/-- C9: the guarded entry point refuses to start — returning with no state
change — when the campaign id is already in the Active-Campaign Guard;
otherwise it holds the id in the Guard for the duration of the run and, on
every exit path (normal completion, raised error, or timeout), the finally
clause leaves the Guard as it was before the call. -/
theorem active_campaign_guard (now : Int) (k : Nat) (env : CoordEnv)
    (outcome : RunOutcome) (guard : List Nat) (c : Campaign)
    (db : List Recipient) :
    (c.id ∈ guard →
       generateCampaignAssets now k env outcome guard c db =
         ⟨guard, guard, c, db, false⟩)
    ∧ (c.id ∉ guard →
       (generateCampaignAssets now k env outcome guard c db).active_during
           = c.id :: guard
       ∧ c.id ∈ (generateCampaignAssets now k env outcome guard c db).active_during
       ∧ (generateCampaignAssets now k env outcome guard c db).guard_final = guard
       ∧ (generateCampaignAssets now k env outcome guard c db).started = true) := by
  constructor
  · intro h
    unfold generateCampaignAssets
    rw [if_pos h]
  · intro h
    unfold generateCampaignAssets
    rw [if_neg h]
    exact ⟨rfl, List.mem_cons_self _ _, List.erase_cons_head _ _, rfl⟩

/-- Closed instance of the guard property: a timeout run on an empty guard
still ends with the guard empty, having held the id while running. -/
theorem active_campaign_guard_witness :
    (generateCampaignAssets 0 5 sampleCoordEnv RunOutcome.timeout []
        sampleCampaign []).active_during = [sampleCampaign.id] ∧
    (generateCampaignAssets 0 5 sampleCoordEnv RunOutcome.timeout []
        sampleCampaign []).guard_final = [] :=
  ⟨((active_campaign_guard 0 5 sampleCoordEnv RunOutcome.timeout []
      sampleCampaign []).2 (by decide)).1,
   ((active_campaign_guard 0 5 sampleCoordEnv RunOutcome.timeout []
      sampleCampaign []).2 (by decide)).2.2.1⟩

/-- Completion evaluation never touches the campaign's started_at stamp. -/
theorem checkAndComplete_started_at (now : Int) (c : Campaign)
    (db : List Recipient) :
    (checkAndCompleteCampaign now c db).asset_generation_started_at
      = c.asset_generation_started_at := by
  unfold checkAndCompleteCampaign
  dsimp only
  split
  · dsimp only
    split <;> rfl
  · rfl

/-- Every orchestrator campaign operation leaves started_at unchanged. -/
theorem applyCampaignOp_started_at (op : CampaignOp) (c0 : Campaign) :
    (applyCampaignOp op c0).asset_generation_started_at
      = c0.asset_generation_started_at := by
  cases op with
  | completeEval t db => exact checkAndComplete_started_at t c0 db
  | coordMarkFailed t msg =>
      simp only [applyCampaignOp, markCampaignFailed]
      split <;> rfl
  | _ =>
      simp [applyCampaignOp, schedulerPickupCampaign,
        schedulerMarkCampaignFailed, recoverStuckCampaign,
        resumeIncompleteCampaign]

/-- Every orchestrator campaign operation either preserves the generation
status or writes a non-processing value. -/
theorem applyCampaignOp_not_processing (op : CampaignOp) (c0 : Campaign)
    (h : c0.asset_generation_status ≠ some AGStatus.processing) :
    (applyCampaignOp op c0).asset_generation_status ≠ some AGStatus.processing := by
  cases op with
  | completeEval t db =>
      show (checkAndCompleteCampaign t c0 db).asset_generation_status ≠ _
      unfold checkAndCompleteCampaign
      dsimp only
      split
      · dsimp only
        split <;> simp
      · exact h
  | coordMarkFailed t msg =>
      show (markCampaignFailed t c0 msg).asset_generation_status ≠ _
      unfold markCampaignFailed
      split <;> simp
  | pickup => exact h
  | coordWriteProgress p => exact h
  | schedFail msg => simp [applyCampaignOp, schedulerMarkCampaignFailed]
  | recoverStuck t => simp [applyCampaignOp, recoverStuckCampaign]
  | resume t => simp [applyCampaignOp, resumeIncompleteCampaign]

/-- C10: no orchestrator operation (scheduling-loop pickup, Coordinator run
commits, recovery phases, failure marking) sets a Campaign's
asset_generation_status to processing or writes its
asset_generation_started_at; hence from a campaign that is not processing,
every state reachable through orchestrator operations is not processing, and
on a store whose campaigns are all non-processing the stuck-campaign query
selects nothing. -/
theorem no_stuck_campaign_from_orchestrator (ops : List CampaignOp)
    (c : Campaign) (now : Int) (cdb : List Campaign) :
    (∀ (op : CampaignOp) (c0 : Campaign),
       (applyCampaignOp op c0).asset_generation_started_at
         = c0.asset_generation_started_at)
    ∧ (∀ (op : CampaignOp) (c0 : Campaign),
       c0.asset_generation_status ≠ some AGStatus.processing →
       (applyCampaignOp op c0).asset_generation_status ≠ some AGStatus.processing)
    ∧ (c.asset_generation_status ≠ some AGStatus.processing →
       (applyCampaignOps ops c).asset_generation_status ≠ some AGStatus.processing)
    ∧ ((∀ c0 ∈ cdb, c0.asset_generation_status ≠ some AGStatus.processing) →
       findStuckCampaigns now cdb = []) := by
  refine ⟨applyCampaignOp_started_at, applyCampaignOp_not_processing, ?_, ?_⟩
  · intro h
    induction ops generalizing c with
    | nil => exact h
    | cons op ops ih =>
        exact ih (applyCampaignOp op c) (applyCampaignOp_not_processing op c h)
  · intro h
    unfold findStuckCampaigns
    rw [List.filter_eq_nil_iff]
    intro c0 hc0
    have := h c0 hc0
    simp [this]

/-- Closed instance: after a pickup followed by stuck-campaign recovery the
sample campaign is still not processing, and a store of one non-processing
campaign yields an empty stuck-campaign selection. -/
theorem no_stuck_campaign_from_orchestrator_witness :
    (applyCampaignOps [CampaignOp.pickup, CampaignOp.recoverStuck 0]
        sampleCampaign).asset_generation_status ≠ some AGStatus.processing ∧
    findStuckCampaigns 100 [sampleCampaign] = [] :=
  ⟨(no_stuck_campaign_from_orchestrator
      [CampaignOp.pickup, CampaignOp.recoverStuck 0] sampleCampaign 100
      [sampleCampaign]).2.2.1 (by decide),
   (no_stuck_campaign_from_orchestrator
      [CampaignOp.pickup, CampaignOp.recoverStuck 0] sampleCampaign 100
      [sampleCampaign]).2.2.2 (by decide)⟩

/-- A positive batch size chunks a list into nothing exactly when the list is
empty. -/
theorem chunkList_eq_nil (b : Nat) (xs : List α) :
    chunkList (b + 1) xs = [] ↔ xs = [] := by
  cases xs <;> simp [chunkList]

/-- Concatenating the batches gives back the original list: the slicing loop
partitions the audience. -/
theorem chunkList_flatten (b : Nat) (xs : List α) :
    (chunkList (b + 1) xs).flatten = xs := by
  cases xs with
  | nil => simp [chunkList]
  | cons x xs =>
      have ih := chunkList_flatten b ((x :: xs).drop (b + 1))
      simp only [chunkList, List.flatten_cons]
      rw [ih, List.take_append_drop]
termination_by xs.length
decreasing_by simp [List.length_drop]; omega

/-- The batch sizes sum to the audience size. -/
theorem chunkList_sum_length (b : Nat) (xs : List α) :
    ((chunkList (b + 1) xs).map List.length).sum = xs.length := by
  have h := congrArg List.length (chunkList_flatten b xs)
  rw [List.length_flatten] at h
  exact h

/-- The number of batches is the length divided by the batch size, rounded
up. -/
theorem chunkList_length (b : Nat) (xs : List α) :
    (chunkList (b + 1) xs).length = (xs.length + b) / (b + 1) := by
  cases xs with
  | nil => simp [chunkList, Nat.div_eq_of_lt (by omega : b < b + 1)]
  | cons x xs =>
      have ih := chunkList_length b ((x :: xs).drop (b + 1))
      simp only [chunkList, List.length_cons]
      rw [ih]
      simp only [List.length_drop, List.length_cons]
      rw [show xs.length + 1 + b = xs.length + (b + 1) by omega,
        Nat.add_div_right _ (Nat.succ_pos b)]
      congr 1
      by_cases hb : b ≤ xs.length
      · rw [show xs.length + 1 - (b + 1) = xs.length - b by omega,
          Nat.sub_add_cancel hb]
      · rw [show xs.length + 1 - (b + 1) + b = b by omega,
          Nat.div_eq_of_lt (by omega : b < b + 1),
          Nat.div_eq_of_lt (by omega : xs.length < b + 1)]
termination_by xs.length
decreasing_by simp [List.length_drop]; omega

/-- Every batch before the last has exactly the batch size. -/
theorem chunkList_dropLast_length (b : Nat) (xs : List α) :
    ∀ l ∈ (chunkList (b + 1) xs).dropLast, l.length = b + 1 := by
  cases xs with
  | nil => simp [chunkList]
  | cons x xs =>
      have ih := chunkList_dropLast_length b ((x :: xs).drop (b + 1))
      simp only [chunkList]
      by_cases hrest : chunkList (b + 1) ((x :: xs).drop (b + 1)) = []
      · rw [hrest]
        simp
      · rw [List.dropLast_cons_of_ne_nil hrest]
        intro l hl
        rcases List.mem_cons.mp hl with h | h
        · subst h
          have hd : (x :: xs).drop (b + 1) ≠ [] :=
            fun hcontra => hrest (by rw [hcontra]; simp [chunkList])
          have hlen : b + 1 ≤ (x :: xs).length := by
            by_contra hcon
            exact hd (List.drop_eq_nil_of_le (by omega))
          simp only [List.length_cons] at hlen
          simp only [List.length_take, List.length_cons]
          omega
        · exact ih l h
termination_by xs.length
decreasing_by simp [List.length_drop]; omega

/-- Every batch is nonempty and no larger than the batch size. -/
theorem chunkList_mem_length (b : Nat) (xs : List α) :
    ∀ l ∈ chunkList (b + 1) xs, l.length ≤ b + 1 ∧ l ≠ [] := by
  cases xs with
  | nil => simp [chunkList]
  | cons x xs =>
      have ih := chunkList_mem_length b ((x :: xs).drop (b + 1))
      simp only [chunkList]
      intro l hl
      rcases List.mem_cons.mp hl with h | h
      · subst h
        constructor
        · simp [List.length_take]
        · rw [List.take_succ_cons]
          exact List.cons_ne_nil x _
      · exact ih l h
termination_by xs.length
decreasing_by simp [List.length_drop]; omega

/-- A batch of Units produces exactly one boolean outcome per member. -/
theorem runBatch_results_length (now : Int) (env : CoordEnv)
    (batch : List Recipient) :
    ∀ db : List Recipient, (runBatch now env db batch).2.length = batch.length := by
  induction batch with
  | nil => intro db; rfl
  | cons m ms ih => intro db; simp [runBatch, ih]

/-- The `r is True` and `r is False` counts of a boolean result list
partition it. -/
theorem bool_filter_partition (l : List Bool) :
    (l.filter (fun x => x == true)).length
      + (l.filter (fun x => x == false)).length = l.length := by
  induction l with
  | nil => rfl
  | cons x xs ih =>
      cases x
      · rw [List.filter_cons_of_neg (by decide),
          List.filter_cons_of_pos (by decide)]
        simp only [List.length_cons]
        omega
      · rw [List.filter_cons_of_pos (by decide),
          List.filter_cons_of_neg (by decide)]
        simp only [List.length_cons]
        omega

/-- Each batch commit advances the processed counter by the batch size. -/
theorem coordStep_processed (now : Int) (env : CoordEnv)
    (st : Campaign × List Recipient) (b : List Recipient) :
    ((coordStep now env st b).1.asset_generation_progress.getD
        Progress.empty).processed
      = ((st.1.asset_generation_progress.getD Progress.empty)).processed
          + b.length := by
  simp [coordStep, updateProgressBatch]

/-- Each batch commit preserves processed = successful + failed. -/
theorem coordStep_consistent (now : Int) (env : CoordEnv)
    (st : Campaign × List Recipient) (b : List Recipient)
    (h : ((st.1.asset_generation_progress.getD Progress.empty)).processed
      = ((st.1.asset_generation_progress.getD Progress.empty)).successful
          + ((st.1.asset_generation_progress.getD Progress.empty)).failed) :
    ((coordStep now env st b).1.asset_generation_progress.getD
        Progress.empty).processed
      = ((coordStep now env st b).1.asset_generation_progress.getD
          Progress.empty).successful
        + ((coordStep now env st b).1.asset_generation_progress.getD
            Progress.empty).failed := by
  have hpart := bool_filter_partition (runBatch now env st.2 b).2
  have hlen := runBatch_results_length now env b st.2
  have hprog : (coordStep now env st b).1.asset_generation_progress
      = some (updateProgressBatch now
          (st.1.asset_generation_progress.getD Progress.empty) b.length
          (runBatch now env st.2 b).2) := rfl
  rw [hprog]
  simp only [Option.getD_some, updateProgressBatch]
  omega

/-- Every checkpoint of the batch loop keeps processed = successful +
failed. -/
theorem coordTrace_consistent (now : Int) (env : CoordEnv)
    (batches : List (List Recipient)) :
    ∀ st : Campaign × List Recipient,
      ((st.1.asset_generation_progress.getD Progress.empty)).processed
        = ((st.1.asset_generation_progress.getD Progress.empty)).successful
            + ((st.1.asset_generation_progress.getD Progress.empty)).failed →
      ∀ q ∈ coordTrace now env st batches,
        ((q.1.asset_generation_progress.getD Progress.empty)).processed
          = ((q.1.asset_generation_progress.getD Progress.empty)).successful
              + ((q.1.asset_generation_progress.getD Progress.empty)).failed := by
  induction batches with
  | nil => intro st h q hq; simp [coordTrace] at hq
  | cons b bs ih =>
      intro st h q hq
      simp only [coordTrace] at hq
      rcases List.mem_cons.mp hq with rfl | hmem
      · exact coordStep_consistent now env st b h
      · exact ih _ (coordStep_consistent now env st b h) q hmem

/-- Folding the batch loop adds the total of the batch sizes to the processed
counter. -/
theorem foldl_coordStep_processed (now : Int) (env : CoordEnv)
    (batches : List (List Recipient)) :
    ∀ st : Campaign × List Recipient,
      (((batches.foldl (coordStep now env) st).1.asset_generation_progress.getD
          Progress.empty)).processed
        = ((st.1.asset_generation_progress.getD Progress.empty)).processed
            + (batches.map List.length).sum := by
  induction batches with
  | nil => intro st; simp
  | cons b bs ih =>
      intro st
      simp only [List.foldl_cons, List.map_cons, List.sum_cons]
      rw [ih, coordStep_processed]
      omega

/-- Completion evaluation never changes the campaign id. -/
theorem checkAndComplete_id (now : Int) (c : Campaign) (db : List Recipient) :
    (checkAndCompleteCampaign now c db).id = c.id := by
  by_cases h : 0 < totalAudienceCount c.id db ∧
      completedAudienceCount c.id db = totalAudienceCount c.id db
  · unfold checkAndCompleteCampaign
    rw [if_pos h]
    by_cases hs : 0 < successfulAudienceCount c.id db
    · rw [if_pos hs]
    · rw [if_neg hs]
  · rw [checkAndComplete_skip now c db h]

/-- Completion evaluation never changes the processed counter. -/
theorem checkAndComplete_processed (now : Int) (c : Campaign)
    (db : List Recipient) :
    ((checkAndCompleteCampaign now c db).asset_generation_progress.getD
        Progress.empty).processed
      = ((c.asset_generation_progress.getD Progress.empty)).processed := by
  by_cases h : 0 < totalAudienceCount c.id db ∧
      completedAudienceCount c.id db = totalAudienceCount c.id db
  · unfold checkAndCompleteCampaign
    rw [if_pos h]
    by_cases hs : 0 < successfulAudienceCount c.id db
    · rw [if_pos hs]
      rfl
    · rw [if_neg hs]
      rfl
  · rw [checkAndComplete_skip now c db h]

/-- Explicit form of the evaluator commit when the campaign completes with at
least one success. -/
theorem checkAndComplete_complete_success (now : Int) (c : Campaign)
    (db : List Recipient)
    (h : 0 < totalAudienceCount c.id db ∧
         completedAudienceCount c.id db = totalAudienceCount c.id db)
    (hs : 0 < successfulAudienceCount c.id db) :
    checkAndCompleteCampaign now c db =
      { c with
          status := CampStatus.asset_generated,
          asset_generation_status := some AGStatus.generated,
          asset_generation_completed_at := some now,
          asset_generation_progress := some
            { (c.asset_generation_progress.getD Progress.empty) with
                completed_at := some now,
                final_total := some (totalAudienceCount c.id db),
                final_successful := some (successfulAudienceCount c.id db),
                final_failed := some (totalAudienceCount c.id db
                  - successfulAudienceCount c.id db) } } := by
  unfold checkAndCompleteCampaign
  rw [if_pos h, if_pos hs]

/-- Explicit form of the evaluator commit when the campaign completes with no
success. -/
theorem checkAndComplete_complete_failed (now : Int) (c : Campaign)
    (db : List Recipient)
    (h : 0 < totalAudienceCount c.id db ∧
         completedAudienceCount c.id db = totalAudienceCount c.id db)
    (hs : ¬ 0 < successfulAudienceCount c.id db) :
    checkAndCompleteCampaign now c db =
      { c with
          asset_generation_status := some AGStatus.failed,
          asset_generation_last_error :=
            some "All audience members failed asset generation",
          asset_generation_completed_at := some now,
          asset_generation_progress := some
            { (c.asset_generation_progress.getD Progress.empty) with
                completed_at := some now,
                final_total := some (totalAudienceCount c.id db),
                final_successful := some (successfulAudienceCount c.id db),
                final_failed := some (totalAudienceCount c.id db
                  - successfulAudienceCount c.id db) } } := by
  unfold checkAndCompleteCampaign
  rw [if_pos h, if_neg hs]

/-- Completion evaluation at a fixed time is idempotent. -/
theorem checkAndComplete_idem (now : Int) (c : Campaign) (db : List Recipient) :
    checkAndCompleteCampaign now (checkAndCompleteCampaign now c db) db
      = checkAndCompleteCampaign now c db := by
  by_cases h : 0 < totalAudienceCount c.id db ∧
      completedAudienceCount c.id db = totalAudienceCount c.id db
  · by_cases hs : 0 < successfulAudienceCount c.id db
    · rw [checkAndComplete_complete_success now c db h hs]
      refine checkAndComplete_complete_success now _ db ?_ ?_
      · exact h
      · exact hs
    · rw [checkAndComplete_complete_failed now c db h hs]
      refine checkAndComplete_complete_failed now _ db ?_ ?_
      · exact h
      · exact hs
  · rw [checkAndComplete_skip now c db h, checkAndComplete_skip now c db h]

/-- C6: a non-empty pending list of n Recipients with concurrency limit k is
sliced into ceil(n/k) batches — every batch before the last has exactly the
batch size min(k, n), every batch is nonempty with at most k members, and the
batches concatenate back to the list (5 recipients with limit 2 give sizes
[2,2,1]); each batch commit advances processed by the batch size and keeps
processed = successful + failed at every persisted checkpoint, and a full
Coordinator run ends with processed equal to the number of pending
Recipients. -/
theorem coordinator_batching_progress (k : Nat) (xs : List Recipient)
    (now : Int) (env : CoordEnv) (c : Campaign) (db : List Recipient)
    (hk : 0 < k) (hxs : xs ≠ [])
    (hfile : env.assetFileFound = true)
    (hpend : getPendingCampaignAudience c.id db ≠ []) :
    ((chunkList (min k xs.length) xs).length = (xs.length + k - 1) / k
      ∧ (chunkList (min k xs.length) xs).flatten = xs
      ∧ (∀ l ∈ (chunkList (min k xs.length) xs).dropLast,
          l.length = min k xs.length)
      ∧ (∀ l ∈ chunkList (min k xs.length) xs, l.length ≤ k ∧ l ≠ []))
    ∧ (chunkList (min 2 audienceFive.length) audienceFive).map List.length
        = [2, 2, 1]
    ∧ (∀ (st : Campaign × List Recipient) (b : List Recipient),
        ((coordStep now env st b).1.asset_generation_progress.getD
            Progress.empty).processed
          = ((st.1.asset_generation_progress.getD Progress.empty)).processed
              + b.length)
    ∧ (∀ st : Campaign × List Recipient,
        ∀ batches : List (List Recipient),
        ((st.1.asset_generation_progress.getD Progress.empty)).processed
          = ((st.1.asset_generation_progress.getD Progress.empty)).successful
              + ((st.1.asset_generation_progress.getD Progress.empty)).failed →
        ∀ q ∈ coordTrace now env st batches,
          ((q.1.asset_generation_progress.getD Progress.empty)).processed
            = ((q.1.asset_generation_progress.getD Progress.empty)).successful
                + ((q.1.asset_generation_progress.getD Progress.empty)).failed)
    ∧ ((processCampaignGeneration now k env c db).1.asset_generation_progress.getD
          Progress.empty).processed
        = (getPendingCampaignAudience c.id db).length := by
  obtain ⟨b, hb⟩ : ∃ b, min k xs.length = b + 1 := by
    have hlen : 0 < xs.length := List.length_pos.mpr hxs
    exact ⟨min k xs.length - 1, by omega⟩
  refine ⟨⟨?_, ?_, ?_, ?_⟩, ?_, ?_, ?_, ?_⟩
  · rw [hb, chunkList_length]
    by_cases hkn : k ≤ xs.length
    · have hbk : b + 1 = k := by
        rw [← hb]
        omega
      congr 1
      omega
    · have hlen : 0 < xs.length := List.length_pos.mpr hxs
      have hbn : b + 1 = xs.length := by
        rw [← hb]
        omega
      have h1 : (xs.length + xs.length - 1) / xs.length = 1 :=
        Nat.div_eq_of_lt_le (by omega) (by omega)
      have h2 : (xs.length + k - 1) / k = 1 :=
        Nat.div_eq_of_lt_le (by omega) (by omega)
      rw [show xs.length + b = xs.length + xs.length - 1 by omega, hbn, h1, h2]
  · rw [hb]
    exact chunkList_flatten b xs
  · rw [hb]
    intro l hl
    exact chunkList_dropLast_length b xs l hl
  · rw [hb]
    intro l hl
    have hm := chunkList_mem_length b xs l hl
    refine ⟨?_, hm.2⟩
    have : b + 1 ≤ k := by
      rw [← hb]
      omega
    omega
  · simp [chunkList, audienceFive]
  · exact coordStep_processed now env
  · exact fun st batches => coordTrace_consistent now env batches st
  · obtain ⟨b2, hb2⟩ :
        ∃ b2, min k (getPendingCampaignAudience c.id db).length = b2 + 1 := by
      have hlen : 0 < (getPendingCampaignAudience c.id db).length :=
        List.length_pos.mpr hpend
      exact ⟨min k (getPendingCampaignAudience c.id db).length - 1, by omega⟩
    unfold processCampaignGeneration
    rw [if_neg (by simp [hfile])]
    rw [if_neg (by simpa [List.isEmpty_iff] using hpend)]
    dsimp only
    rw [checkAndComplete_processed, foldl_coordStep_processed, hb2,
      chunkList_sum_length]
    simp [initProgress]

/-- Closed instance of the batching scenario: five pending Recipients with
limit 2 give batch sizes [2,2,1], and the run ends with processed = 5. -/
theorem coordinator_batching_progress_witness :
    (chunkList (min 2 audienceFive.length) audienceFive).map List.length
        = [2, 2, 1] ∧
    ((processCampaignGeneration 0 2 sampleCoordEnv sampleCampaign
        audienceFive).1.asset_generation_progress.getD Progress.empty).processed
      = (getPendingCampaignAudience sampleCampaign.id audienceFive).length :=
  ⟨(coordinator_batching_progress 2 audienceFive 0 sampleCoordEnv sampleCampaign
      audienceFive (by decide) (by decide) rfl (by decide)).2.1,
   (coordinator_batching_progress 2 audienceFive 0 sampleCoordEnv sampleCampaign
      audienceFive (by decide) (by decide) rfl (by decide)).2.2.2.2⟩

/-- C7: with the asset file present and no pending-eligible Recipients, a
Coordinator run skips straight to the completion evaluation — starting no
batch and touching no Recipient row — and running the Coordinator twice
produces exactly the state of running it once. -/
theorem coordinator_idempotent_no_pending (now : Int) (k : Nat)
    (env : CoordEnv) (c : Campaign) (db : List Recipient)
    (hfile : env.assetFileFound = true)
    (hpend : getPendingCampaignAudience c.id db = []) :
    processCampaignGeneration now k env c db
        = (checkAndCompleteCampaign now c db, db)
    ∧ processCampaignGeneration now k env
        (processCampaignGeneration now k env c db).1
        (processCampaignGeneration now k env c db).2
      = processCampaignGeneration now k env c db := by
  have h1 : processCampaignGeneration now k env c db
      = (checkAndCompleteCampaign now c db, db) := by
    unfold processCampaignGeneration
    rw [if_neg (by simp [hfile])]
    rw [if_pos (by simp [hpend])]
  refine ⟨h1, ?_⟩
  rw [h1]
  dsimp only
  have hpend2 :
      getPendingCampaignAudience (checkAndCompleteCampaign now c db).id db
        = [] := by
    rw [checkAndComplete_id]
    exact hpend
  unfold processCampaignGeneration
  rw [if_neg (by simp [hfile])]
  rw [if_pos (by simp [hpend2])]
  rw [checkAndComplete_idem]

/-- Closed instance of the no-pending Coordinator run at a fully completed
audience. -/
theorem coordinator_idempotent_no_pending_witness :
    processCampaignGeneration 0 5 sampleCoordEnv sampleCampaign audienceMixed
      = (checkAndCompleteCampaign 0 sampleCampaign audienceMixed,
         audienceMixed) :=
  (coordinator_idempotent_no_pending 0 5 sampleCoordEnv sampleCampaign
    audienceMixed rfl (by decide)).1

end AssetGen
